import Mathlib

/-!
Verification of the codeflix catalog CDC ingestion and projection pipeline.

This file shallowly embeds the pipeline's core Python modules:
  * `src/infra/kafka/parser.py` (Debezium message parsing),
  * `src/_shared/infra/kafka/event_handler.py` (operation dispatch),
  * `src/infra/kafka/video_event_handler.py` (video handler, delete stub),
  * `src/application/save_video.py` (save/projection use case),
  * `src/infra/elasticsearch/elasticsearch_video_repository.py` (search and upsert),
  * `src/infra/client/http_codeflix.py` (enrichment client stub),
  * `src/infra/kafka/consumer.py` (poll/handle/commit loop),
and proves the documented behavioural properties over the embedding.

Machine-level conventions: UUIDs and datetimes are carried as opaque strings
(the pipeline never computes with them); JSON values are a small inductive;
Python exceptions are modelled as explicit error results; the Elasticsearch
index is an association list keyed by document id, in which the `index`
operation replaces in place or appends (upsert, per the store's contract).
-/

/-- `Rating` enum from `src/_shared/models/enums.py`. -/
inductive Rating
  | ER
  | L
  | AGE_10
  | AGE_12
  | AGE_14
  | AGE_16
  | AGE_18
  deriving DecidableEq, Repr

/-- `Operation` enum from `src/_shared/models/enums.py`
(`CREATE = "c"`, `UPDATE = "u"`, `DELETE = "d"`, `READ = "r"`). -/
inductive Operation
  | CREATE
  | UPDATE
  | DELETE
  | READ
  deriving DecidableEq, Repr

/-- The entity classes routed by the pipeline (`src/domain/...`): the parser's
`table_to_entity` mapping targets these four kinds. -/
inductive EntityKind
  | Category
  | CastMember
  | Genre
  | Video
  deriving DecidableEq, Repr

/-- Decoded JSON values, as produced by Python's `json.loads`. -/
inductive Json
  | null
  | bool (b : Bool)
  | num (n : Int)
  | str (s : String)
  | arr (elems : List Json)
  | obj (fields : List (String × Json))
  deriving Repr

/-- The Python exceptions that can arise inside `parse_debezium_message`:
`KeyError` (absent dict key / unknown dict key), `ValueError` (enum lookup
failure in `Operation(...)`), `TypeError` (subscripting a non-dict, or an
unhashable dict key), `UnicodeDecodeError` (from `data.decode("utf-8")` on a
payload that is not valid UTF-8 — a sibling of `JSONDecodeError` under
`ValueError`, not a subclass of it, so `except json.JSONDecodeError` does not
catch it). -/
inductive PyErr
  | keyError
  | valueError
  | typeError
  | unicodeDecodeError
  deriving DecidableEq, Repr

/-- The outcome of the first step of `parse_debezium_message`,
`json.loads(data.decode("utf-8"))`, on the raw message bytes: the bytes
decode to UTF-8 text that parses as JSON; or they decode to UTF-8 text that
is not valid JSON (`json.loads` raises `json.JSONDecodeError`); or they are
not valid UTF-8 at all (`data.decode` raises `UnicodeDecodeError`). -/
inductive RawMessage
  | decoded (j : Json)
  | notJson
  | notUtf8

/-- Key lookup in a decoded JSON object's field list (Python `dict` access). -/
def jsonGet : List (String × Json) → String → Option Json
  | [], _ => none
  | field :: rest, key => if field.1 = key then some field.2 else jsonGet rest key

/-- Python subscript `value[key]` with a string key: a dict either yields the
value (`ok`) or raises `KeyError`; every non-dict raises `TypeError`. -/
def pyGetItem : Json → String → Except PyErr Json
  | Json.obj fields, key =>
    match jsonGet fields key with
    | some v => Except.ok v
    | none => Except.error PyErr.keyError
  | _, _ => Except.error PyErr.typeError

/-- The fixed `table_to_entity` dictionary of `src/infra/kafka/parser.py`. -/
def table_to_entity : String → Option EntityKind := fun table =>
  if table = "categories" then some EntityKind.Category
  else if table = "cast_members" then some EntityKind.CastMember
  else if table = "genres" then some EntityKind.Genre
  else if table = "videos" then some EntityKind.Video
  else none

/-- Python `table_to_entity[value]` on an arbitrary decoded value: a known
table string yields the entity, any other hashable value raises `KeyError`,
and an unhashable value (dict or list) raises `TypeError`. -/
def tableIndex : Json → Except PyErr EntityKind
  | Json.str s =>
    match table_to_entity s with
    | some e => Except.ok e
    | none => Except.error PyErr.keyError
  | Json.obj _ => Except.error PyErr.typeError
  | Json.arr _ => Except.error PyErr.typeError
  | _ => Except.error PyErr.keyError

/-- Python `Operation(value)`: the four code strings construct the enum member;
every other value raises `ValueError` (the enum machinery converts even an
unhashable argument into `ValueError`). -/
def operationOf : Json → Except PyErr Operation
  | Json.str "c" => Except.ok Operation.CREATE
  | Json.str "u" => Except.ok Operation.UPDATE
  | Json.str "d" => Except.ok Operation.DELETE
  | Json.str "r" => Except.ok Operation.READ
  | _ => Except.error PyErr.valueError

/-- `ParsedEvent` dataclass from `src/infra/kafka/parser.py`. -/
structure ParsedEvent where
  entity : EntityKind
  operation : Operation
  payload : Json

/-- Result of one `parse_debezium_message` call: a parsed event, `None`
returned after logging `errorsLogged` errors, or an uncaught exception. -/
inductive ParseOutcome
  | event (e : ParsedEvent)
  | noEvent (errorsLogged : Nat)
  | uncaught (err : PyErr)

/-- The body of the second `try` block of `parse_debezium_message`, with
Python's evaluation order: payload lookup, source lookup, table lookup,
`table_to_entity` index, op lookup, `Operation(...)`, then the after image
for non-delete operations and the before image for delete. -/
def parseChain (json_data : Json) : Except PyErr ParsedEvent :=
  match pyGetItem json_data "payload" with
  | Except.error e => Except.error e
  | Except.ok payload =>
    match pyGetItem payload "source" with
    | Except.error e => Except.error e
    | Except.ok source =>
      match pyGetItem source "table" with
      | Except.error e => Except.error e
      | Except.ok tableVal =>
        match tableIndex tableVal with
        | Except.error e => Except.error e
        | Except.ok entity =>
          match pyGetItem payload "op" with
          | Except.error e => Except.error e
          | Except.ok opVal =>
            match operationOf opVal with
            | Except.error e => Except.error e
            | Except.ok operation =>
              match (if operation = Operation.DELETE then pyGetItem payload "before"
                     else pyGetItem payload "after") with
              | Except.error e => Except.error e
              | Except.ok body => Except.ok ⟨entity, operation, body⟩

/-- `parse_debezium_message` from `src/infra/kafka/parser.py`. The argument is
the outcome of `json.loads(data.decode("utf-8"))` on the raw bytes. The first
`try` catches only `json.JSONDecodeError` (logging one error and returning
`None`); a `UnicodeDecodeError` from `data.decode("utf-8")` is not caught and
propagates. The second `try` catches only `KeyError` and `ValueError` — each
caught failure logs one error and returns `None`; any other exception (a
`TypeError` from subscripting a non-dict) propagates uncaught. -/
def parse_debezium_message (data : RawMessage) : ParseOutcome :=
  match data with
  | RawMessage.notUtf8 => ParseOutcome.uncaught PyErr.unicodeDecodeError
  | RawMessage.notJson => ParseOutcome.noEvent 1
  | RawMessage.decoded json_data =>
    match parseChain json_data with
    | Except.ok ev => ParseOutcome.event ev
    | Except.error PyErr.keyError => ParseOutcome.noEvent 1
    | Except.error PyErr.valueError => ParseOutcome.noEvent 1
    | Except.error e => ParseOutcome.uncaught e

/-- The three abstract handler methods of
`src/_shared/infra/kafka/event_handler.py`. -/
inductive HandlerMethod
  | handle_created
  | handle_updated
  | handle_deleted
  deriving DecidableEq, Repr

/-- `AbstractEventHandler.__call__`: the if/elif chain on `event.operation`.
Returns the list of handler methods invoked together with the number of
"Unknown operation" info-log lines emitted. -/
def eventHandlerCall (event : ParsedEvent) : List HandlerMethod × Nat :=
  if event.operation = Operation.CREATE then ([HandlerMethod.handle_created], 0)
  else if event.operation = Operation.UPDATE then ([HandlerMethod.handle_updated], 0)
  else if event.operation = Operation.DELETE then ([HandlerMethod.handle_deleted], 0)
  else ([], 1)

/-- `CategoryResponse` from `src/_shared/models/category.py`. -/
structure CategoryResponse where
  id : String
  name : String
  description : String
  deriving DecidableEq, Repr

/-- `CastMemberResponse` from `src/_shared/models/cast_member.py`. -/
structure CastMemberResponse where
  id : String
  name : String
  type : String
  deriving DecidableEq, Repr

/-- `GenreResponse` from `src/_shared/models/genre.py`. -/
structure GenreResponse where
  id : String
  name : String
  deriving DecidableEq, Repr

/-- `BannerResponse` from `src/_shared/models/banner.py`. -/
structure BannerResponse where
  name : String
  raw_location : String
  deriving DecidableEq, Repr

/-- `VideoResponse` from `src/_shared/models/video.py` — the enrichment
client's response shape. -/
structure VideoResponse where
  id : String
  title : String
  launch_year : Int
  rating : Rating
  is_active : Bool
  categories : List CategoryResponse
  cast_members : List CastMemberResponse
  genres : List GenreResponse
  banner : BannerResponse
  deriving DecidableEq, Repr

/-- `SaveVideoInput` from `src/application/save_video.py`. -/
structure SaveVideoInput where
  id : String
  title : String
  launch_year : Int
  rating : Rating
  created_at : String
  updated_at : String
  is_active : Bool
  deriving DecidableEq, Repr

/-- The `Video` entity from `src/domain/video.py` (fields of the shared
`Entity` base plus the video-specific ones; the associative fields are Python
sets of UUIDs). -/
structure Video where
  id : String
  created_at : String
  updated_at : String
  is_active : Bool
  title : String
  launch_year : Int
  rating : Rating
  categories : Finset String
  cast_members : Finset String
  genres : Finset String
  banner : String
  deriving DecidableEq

/-- The state of the Elasticsearch video index: documents keyed by the
document id passed to the store's `index` operation. -/
abbrev IndexState := List (String × Video)

/-- The store's `index` operation (`self._client.index(index=..., id=..., body=...)`
in `ElasticsearchVideoRepository.save`): upsert keyed by document id — an
existing document with that id is replaced in place, otherwise the document
is appended. -/
def esIndexWrite : IndexState → String → Video → IndexState
  | [], docId, doc => [(docId, doc)]
  | entry :: rest, docId, doc =>
    if entry.1 = docId then (docId, doc) :: rest
    else entry :: esIndexWrite rest docId doc

/-- Fetch the document stored under a given id. -/
def lookupKey : IndexState → String → Option Video
  | [], _ => none
  | entry :: rest, docId => if entry.1 = docId then some entry.2 else lookupKey rest docId

/-- The `Video(**video_input.model_dump(), categories=..., cast_members=...,
genres=..., banner=...)` construction inside `SaveVideo.execute`: scalar
fields come from the input, the three associative sets are the identifier
sets drawn from the enrichment response, and the banner is the response
banner's raw location. -/
def buildVideo (video_input : SaveVideoInput) (http_data : VideoResponse) : Video :=
  { id := video_input.id
    created_at := video_input.created_at
    updated_at := video_input.updated_at
    is_active := video_input.is_active
    title := video_input.title
    launch_year := video_input.launch_year
    rating := video_input.rating
    categories := (http_data.categories.map (fun category => category.id)).toFinset
    cast_members := (http_data.cast_members.map (fun cast_member => cast_member.id)).toFinset
    genres := (http_data.genres.map (fun genre => genre.id)).toFinset
    banner := http_data.banner.raw_location }

/-- `SaveVideo.execute` from `src/application/save_video.py`: fetch the
enrichment response for the input's id, build the merged `Video`, and write
it to the index keyed by `str(video.id)` via `ElasticsearchVideoRepository.save`. -/
def SaveVideo.execute (client : String → VideoResponse) (video_input : SaveVideoInput)
    (state : IndexState) : IndexState :=
  esIndexWrite state video_input.id (buildVideo video_input (client video_input.id))

/-- The repository operations a video event handler may issue. -/
inductive RepoOp
  | save (docId : String) (doc : Video)
  deriving DecidableEq

/-- `VideoEventHandler.handle_deleted` from
`src/infra/kafka/video_event_handler.py`: the body only prints the payload
(`# TODO: implement delete use case`) — it issues no repository operation and
leaves the index untouched. -/
def VideoEventHandler.handle_deleted (_event : ParsedEvent) (state : IndexState) :
    IndexState × List RepoOp :=
  (state, [])

/-- The per-hit decode loop at the end of `ElasticsearchVideoRepository.search`:
each hit is validated into a `Video` (`decode` models the pydantic
constructor, `none` meaning `ValidationError`); failures log one error and
are skipped, successes are appended in order. Returns the parsed entities
and the number of errors logged. -/
def searchParseHits (decode : Json → Option Video) : List Json → List Video × Nat
  | [] => ([], 0)
  | hit :: rest =>
    let r := searchParseHits decode rest
    match decode hit with
    | some v => (v :: r.1, r.2)
    | none => (r.1, r.2 + 1)

/-- The hit window the search body requests from the store:
`"from": (page - 1) * per_page, "size": per_page` over the stored documents
in index order. -/
def esSearchWindow (store : List Json) (page per_page : Nat) : List Json :=
  (store.drop ((page - 1) * per_page)).take per_page

/-- `ElasticsearchVideoRepository.search`, restricted to the query/decode
pipeline: request the offset window, then decode each hit with skip-and-log. -/
def ElasticsearchVideoRepository.search (decode : Json → Option Video)
    (store : List Json) (page per_page : Nat) : List Video :=
  (searchParseHits decode (esSearchWindow store page per_page)).1

/-- `HttpCodeflixClient.get_video` from `src/infra/client/http_codeflix.py`:
builds a constant `VideoResponse` (no HTTP request is made anywhere in the
body) whose only input-dependent field is the id. -/
def HttpCodeflixClient.get_video (video_id : String) : VideoResponse :=
  { id := video_id
    title := "The Godfather"
    launch_year := 1972
    rating := Rating.AGE_18
    is_active := true
    categories := [{ id := "142f2b4b-1b7b-4f3b-8eab-3f2f2b4b1b7b"
                     name := "Action"
                     description := "Action movies" }]
    cast_members := [{ id := "242f2b4b-1b7b-4f3b-8eab-3f2f2b4b1b7b"
                       name := "Marlon Brando"
                       type := "ACTOR" },
                     { id := "342f2b4b-1b7b-4f3b-8eab-3f2f2b4b1b7b"
                       name := "Al Pacino"
                       type := "DIRECTOR" }]
    genres := [{ id := "442f2b4b-1b7b-4f3b-8eab-3f2f2b4b1b7b"
                 name := "Drama" }]
    banner := { name := "The Godfather"
                raw_location := "https://banner.com/the-godfather" } }

/-- A polled Kafka message as `Consumer.consume` observes it:
`message.error()` (an error object or `None`) and `message.value()` (the raw
bytes or `None`). Bytes are modelled as a list of byte values. -/
structure KafkaMessage where
  error : Option String
  value : Option (List Nat)
  deriving DecidableEq, Repr

/-- An exception raised by a routed handler: either a `KafkaException` or any
other exception (validation fault, enrichment fault, index write fault, ...). -/
inductive HandlerErr
  | kafka (msg : String)
  | other (msg : String)
  deriving DecidableEq, Repr

/-- The possible ends of one `Consumer.consume` call, in the order the body
checks them: early returns without commit (no message, broker error, empty
payload, parse failure), an uncaught `KeyError` from the router lookup, an
exception propagating out of the handler, or a successful handling followed
by the offset commit. -/
inductive ConsumeOutcome
  | noMessage
  | brokerError
  | emptyPayload
  | parseFailed
  | routingKeyError (entity : EntityKind)
  | handlerRaised (err : HandlerErr)
  | committed
  deriving DecidableEq, Repr

/-- `Consumer.consume` from `src/infra/kafka/consumer.py`. `msg?` is the
result of `self.client.poll(timeout=1.0)`; `parser` the injected parser;
`router` the entity-to-handler mapping (a missing entry raises `KeyError`).
The handler call is `self.router[parsed_event.entity]()(parsed_event)`;
`self.client.commit(message=message)` runs only after it returns. -/
def consume (msg? : Option KafkaMessage)
    (parser : List Nat → Option ParsedEvent)
    (router : EntityKind → Option (ParsedEvent → Except HandlerErr Unit)) :
    ConsumeOutcome :=
  match msg? with
  | none => ConsumeOutcome.noMessage
  | some message =>
    match message.error with
    | some _ => ConsumeOutcome.brokerError
    | none =>
      match message.value with
      | none => ConsumeOutcome.emptyPayload
      | some message_data =>
        if message_data = [] then ConsumeOutcome.emptyPayload
        else
          match parser message_data with
          | none => ConsumeOutcome.parseFailed
          | some parsed_event =>
            match router parsed_event.entity with
            | none => ConsumeOutcome.routingKeyError parsed_event.entity
            | some handler =>
              match handler parsed_event with
              | Except.error e => ConsumeOutcome.handlerRaised e
              | Except.ok _ => ConsumeOutcome.committed

/-- Whether the offset of the polled message was committed. -/
def commitsOffset : ConsumeOutcome → Bool
  | ConsumeOutcome.committed => true
  | _ => false

/-- Classification of an exception escaping `Consumer.consume`, as matched by
the `except` clauses of `Consumer.start`. -/
inductive PyExcKind
  | keyError
  | kafkaException
  | otherException
  deriving DecidableEq, Repr

/-- The exception (if any) that a `consume` call lets propagate: the router
`KeyError`, or the handler's own exception. -/
def consumeExc : ConsumeOutcome → Option PyExcKind
  | ConsumeOutcome.routingKeyError _ => some PyExcKind.keyError
  | ConsumeOutcome.handlerRaised (HandlerErr.kafka _) => some PyExcKind.kafkaException
  | ConsumeOutcome.handlerRaised (HandlerErr.other _) => some PyExcKind.otherException
  | _ => none

/-- One iteration's stimulus for `Consumer.start`: either the poll returns
(possibly no message), or a `KeyboardInterrupt` arrives at the blocking poll. -/
inductive PollStep
  | interrupt
  | poll (msg? : Option KafkaMessage)

/-- How a `Consumer.start` run ends: the scripted input ran out with the loop
still going, a `KeyboardInterrupt` was caught, a `KafkaException` was caught
and logged, or another exception propagated out of `start`. -/
inductive ExitKind
  | ranOut
  | interrupted
  | kafkaLogged
  | crashed
  deriving DecidableEq, Repr

/-- Observable trace of a `Consumer.start` run. `commits` records, per
completed `consume` iteration, whether that iteration committed its message;
`polled` counts loop iterations entered; `closed` records whether the
`finally` block closed the Kafka client. -/
structure RunResult where
  commits : List Bool
  polled : Nat
  closed : Bool
  exit : ExitKind
  deriving DecidableEq, Repr

/-- `Consumer.start` from `src/infra/kafka/consumer.py`, driven by a finite
script of poll stimuli: `while True: self.consume()` inside
`try ... except KeyboardInterrupt ... except KafkaException ... finally: self.stop()`.
A `KafkaException` from handling is caught and logged before the stop; a
`KeyboardInterrupt` is caught; every other exception propagates after the
`finally` close. In every exception case the loop does not reach the next
poll cycle. -/
def startRun (parser : List Nat → Option ParsedEvent)
    (router : EntityKind → Option (ParsedEvent → Except HandlerErr Unit)) :
    List PollStep → RunResult
  | [] => { commits := [], polled := 0, closed := false, exit := ExitKind.ranOut }
  | PollStep.interrupt :: _ =>
    { commits := [], polled := 1, closed := true, exit := ExitKind.interrupted }
  | PollStep.poll msg? :: rest =>
    let outcome := consume msg? parser router
    match consumeExc outcome with
    | some PyExcKind.kafkaException =>
      { commits := [false], polled := 1, closed := true, exit := ExitKind.kafkaLogged }
    | some PyExcKind.keyError =>
      { commits := [false], polled := 1, closed := true, exit := ExitKind.crashed }
    | some PyExcKind.otherException =>
      { commits := [false], polled := 1, closed := true, exit := ExitKind.crashed }
    | none =>
      let r := startRun parser router rest
      { commits := commitsOffset outcome :: r.commits
        polled := r.polled + 1
        closed := r.closed
        exit := r.exit }

/-- A decoded Debezium message whose expected sub-object key is present but
null: table `videos`, op `c` (create), `"after": null` — the same encoding
Debezium uses for an absent image (compare the repository's delete-event test,
whose message carries `"after": null`). -/
def nullAfterMessage : Json :=
  Json.obj [("payload", Json.obj
    [("source", Json.obj [("table", Json.str "videos")]),
     ("op", Json.str "c"),
     ("after", Json.null)])]

/-- A fixed parsed event used by the concrete consumer runs. -/
def cexParsedEvent : ParsedEvent := ⟨EntityKind.Video, Operation.CREATE, Json.null⟩

/-- A parser that successfully parses any payload (models a well-formed CDC
stream). -/
def cexParser : List Nat → Option ParsedEvent := fun _ => some cexParsedEvent

/-- A router whose video handler raises a non-Kafka fault (e.g. an index
write fault) on every event. -/
def cexFaultRouter : EntityKind → Option (ParsedEvent → Except HandlerErr Unit) :=
  fun _ => some (fun _ => Except.error (HandlerErr.other "index write fault"))

/-- A well-formed polled message carrying one byte of payload. -/
def cexMessage : KafkaMessage := { error := none, value := some [1] }

/-! ### Helper lemmas -/

theorem esIndexWrite_idem (state : IndexState) (docId : String) (doc : Video) :
    esIndexWrite (esIndexWrite state docId doc) docId doc = esIndexWrite state docId doc := by
  induction state with
  | nil => simp [esIndexWrite]
  | cons entry rest ih =>
    by_cases h : entry.1 = docId
    · simp [esIndexWrite, h]
    · simp [esIndexWrite, h, ih]

theorem esIndexWrite_count (state : IndexState) (docId : String) (doc : Video)
    (h : (state.map Prod.fst).Nodup) :
    (esIndexWrite state docId doc).countP (fun entry => entry.1 = docId) = 1 := by
  induction state with
  | nil => simp [esIndexWrite]
  | cons entry rest ih =>
    simp only [List.map_cons, List.nodup_cons] at h
    obtain ⟨hnot, hrest⟩ := h
    by_cases hk : entry.1 = docId
    · have hzero : rest.countP (fun e => e.1 = docId) = 0 := by
        rw [List.countP_eq_zero]
        intro e he
        simp only [decide_eq_true_eq]
        intro hcontra
        exact hnot (hk ▸ hcontra ▸ List.mem_map_of_mem Prod.fst he)
      simp [esIndexWrite, hk, List.countP_cons, hzero]
    · simp [esIndexWrite, hk, List.countP_cons, ih hrest]

theorem lookupKey_esIndexWrite (state : IndexState) (docId : String) (doc : Video) :
    lookupKey (esIndexWrite state docId doc) docId = some doc := by
  induction state with
  | nil => simp [esIndexWrite, lookupKey]
  | cons entry rest ih =>
    by_cases h : entry.1 = docId
    · simp [esIndexWrite, h, lookupKey]
    · simp [esIndexWrite, h, lookupKey, ih]

theorem searchParseHits_fst (decode : Json → Option Video) (hits : List Json) :
    (searchParseHits decode hits).1 = hits.filterMap decode := by
  induction hits with
  | nil => simp [searchParseHits]
  | cons hit rest ih =>
    cases hd : decode hit <;> simp [searchParseHits, hd, ih, List.filterMap_cons]

theorem searchParseHits_snd (decode : Json → Option Video) (hits : List Json) :
    (searchParseHits decode hits).2 = hits.countP (fun hit => (decode hit).isNone) := by
  induction hits with
  | nil => simp [searchParseHits]
  | cons hit rest ih =>
    cases hd : decode hit <;> simp [searchParseHits, hd, ih, List.countP_cons]

theorem searchParseHits_snd_le (decode : Json → Option Video) (hits : List Json) :
    (searchParseHits decode hits).2 ≤ hits.length := by
  induction hits with
  | nil => simp [searchParseHits]
  | cons hit rest ih =>
    cases hd : decode hit <;> simp [searchParseHits, hd] <;> omega

/-! ### Claim theorems -/

/-- C3: the save/upsert operation is idempotent — executing the
Save/Projection use case on the same input twice leaves the video index in
exactly the state one execution produces; the index then holds exactly one
document for the input's identifier, stored under that identifier
(upsert-in-place). -/
theorem saveVideo_idempotent_upsert (client : String → VideoResponse)
    (video_input : SaveVideoInput) (state : IndexState)
    (h : (state.map Prod.fst).Nodup) :
    SaveVideo.execute client video_input (SaveVideo.execute client video_input state) =
        SaveVideo.execute client video_input state ∧
      (SaveVideo.execute client video_input state).countP
          (fun entry => entry.1 = video_input.id) = 1 ∧
      lookupKey (SaveVideo.execute client video_input state) video_input.id =
        some (buildVideo video_input (client video_input.id)) :=
  ⟨esIndexWrite_idem state video_input.id (buildVideo video_input (client video_input.id)),
   esIndexWrite_count state video_input.id (buildVideo video_input (client video_input.id)) h,
   lookupKey_esIndexWrite state video_input.id
     (buildVideo video_input (client video_input.id))⟩

theorem saveVideo_idempotent_upsert_witness :
    SaveVideo.execute HttpCodeflixClient.get_video
          { id := "v1", title := "X", launch_year := 2000, rating := Rating.L,
            created_at := "T1", updated_at := "T1", is_active := true }
          (SaveVideo.execute HttpCodeflixClient.get_video
            { id := "v1", title := "X", launch_year := 2000, rating := Rating.L,
              created_at := "T1", updated_at := "T1", is_active := true } []) =
        SaveVideo.execute HttpCodeflixClient.get_video
          { id := "v1", title := "X", launch_year := 2000, rating := Rating.L,
            created_at := "T1", updated_at := "T1", is_active := true } [] ∧
      (SaveVideo.execute HttpCodeflixClient.get_video
          { id := "v1", title := "X", launch_year := 2000, rating := Rating.L,
            created_at := "T1", updated_at := "T1", is_active := true } []).countP
          (fun entry => entry.1 = "v1") = 1 ∧
      lookupKey (SaveVideo.execute HttpCodeflixClient.get_video
          { id := "v1", title := "X", launch_year := 2000, rating := Rating.L,
            created_at := "T1", updated_at := "T1", is_active := true } []) "v1" =
        some (buildVideo
          { id := "v1", title := "X", launch_year := 2000, rating := Rating.L,
            created_at := "T1", updated_at := "T1", is_active := true }
          (HttpCodeflixClient.get_video "v1")) :=
  saveVideo_idempotent_upsert HttpCodeflixClient.get_video
    { id := "v1", title := "X", launch_year := 2000, rating := Rating.L,
      created_at := "T1", updated_at := "T1", is_active := true } [] (by simp)

/-- C4: the document the Save/Projection use case upserts has its three
associative sets and banner drawn from the enrichment response (fully
replaced — independent of any prior index state) and every scalar field
copied from the Save-input. -/
theorem saveVideo_projection_merge (client : String → VideoResponse)
    (video_input : SaveVideoInput) (state : IndexState) :
    lookupKey (SaveVideo.execute client video_input state) video_input.id =
      some { id := video_input.id
             created_at := video_input.created_at
             updated_at := video_input.updated_at
             is_active := video_input.is_active
             title := video_input.title
             launch_year := video_input.launch_year
             rating := video_input.rating
             categories :=
               ((client video_input.id).categories.map (fun category => category.id)).toFinset
             cast_members :=
               ((client video_input.id).cast_members.map
                 (fun cast_member => cast_member.id)).toFinset
             genres := ((client video_input.id).genres.map (fun genre => genre.id)).toFinset
             banner := (client video_input.id).banner.raw_location } :=
  lookupKey_esIndexWrite state video_input.id
    (buildVideo video_input (client video_input.id))

/-- C6: `AbstractEventHandler.__call__` invokes exactly one handler method for
CREATE, UPDATE and DELETE respectively, and for any other operation (READ)
invokes none of them and emits one info log. -/
theorem event_handler_dispatch (event : ParsedEvent) :
    (eventHandlerCall event).1.length ≤ 1 ∧
      (event.operation = Operation.CREATE →
        eventHandlerCall event = ([HandlerMethod.handle_created], 0)) ∧
      (event.operation = Operation.UPDATE →
        eventHandlerCall event = ([HandlerMethod.handle_updated], 0)) ∧
      (event.operation = Operation.DELETE →
        eventHandlerCall event = ([HandlerMethod.handle_deleted], 0)) ∧
      (event.operation = Operation.READ → eventHandlerCall event = ([], 1)) := by
  rcases event with ⟨entity, op, payload⟩
  cases op <;> simp [eventHandlerCall]

theorem event_handler_dispatch_witness :
    eventHandlerCall ⟨EntityKind.Video, Operation.READ, Json.null⟩ = ([], 1) :=
  (event_handler_dispatch ⟨EntityKind.Video, Operation.READ, Json.null⟩).2.2.2.2 rfl

/-- C7: over any stored hit list, the search decode loop returns exactly the
valid entities in their original relative order (it is the `filterMap` of the
decode), logs one error per failing document, and thus returns `N - K`
entities when `K` of `N` fail to decode. -/
theorem search_skip_and_log (decode : Json → Option Video) (hits : List Json) :
    (searchParseHits decode hits).1 = hits.filterMap decode ∧
      (searchParseHits decode hits).2 = hits.countP (fun hit => (decode hit).isNone) ∧
      (searchParseHits decode hits).1.length =
        hits.length - (searchParseHits decode hits).2 := by
  refine ⟨searchParseHits_fst decode hits, searchParseHits_snd decode hits, ?_⟩
  induction hits with
  | nil => simp [searchParseHits]
  | cons hit rest ih =>
    have hle := searchParseHits_snd_le decode rest
    cases hd : decode hit <;> simp [searchParseHits, hd] <;> omega

/-- C8: `VideoEventHandler.handle_deleted` is a no-op with respect to the
index: it performs no repository operation and leaves the index state
unchanged. -/
theorem handle_deleted_noop (event : ParsedEvent) (state : IndexState) :
    (VideoEventHandler.handle_deleted event state).1 = state ∧
      (VideoEventHandler.handle_deleted event state).2 = ([] : List RepoOp) :=
  ⟨rfl, rfl⟩

/-- C9: the repository search paginates by offset — for any page ≥ 1 it
requests exactly the window that skips `(page - 1) * per_page` stored
documents with limit `per_page`, and a page whose offset lies beyond the
stored count returns an empty list. -/
theorem search_pagination (decode : Json → Option Video) (store : List Json)
    (page per_page : Nat) (hpage : 1 ≤ page) :
    ElasticsearchVideoRepository.search decode store page per_page =
        ((store.drop ((page - 1) * per_page)).take per_page).filterMap decode ∧
      (store.length ≤ (page - 1) * per_page →
        ElasticsearchVideoRepository.search decode store page per_page = []) := by
  constructor
  · exact searchParseHits_fst decode (esSearchWindow store page per_page)
  · intro hle
    have hdrop : store.drop ((page - 1) * per_page) = [] := List.drop_eq_nil_of_le hle
    simp [ElasticsearchVideoRepository.search, esSearchWindow, hdrop, searchParseHits]

theorem search_pagination_witness :
    ElasticsearchVideoRepository.search (fun _ => none) [Json.null] 5 3 = [] :=
  (search_pagination (fun _ => none) [Json.null] 5 3 (by decide)).2 (by decide)

/-- C10: the default enrichment client is a deterministic constant stub — the
response's id equals the input identifier and every other field is the same
hard-coded value on every call (the function is pure, so equal identifiers
always give equal responses). -/
theorem http_codeflix_constant_stub (video_id : String) :
    HttpCodeflixClient.get_video video_id =
        { id := video_id
          title := "The Godfather"
          launch_year := 1972
          rating := Rating.AGE_18
          is_active := true
          categories := [{ id := "142f2b4b-1b7b-4f3b-8eab-3f2f2b4b1b7b"
                           name := "Action"
                           description := "Action movies" }]
          cast_members := [{ id := "242f2b4b-1b7b-4f3b-8eab-3f2f2b4b1b7b"
                             name := "Marlon Brando"
                             type := "ACTOR" },
                           { id := "342f2b4b-1b7b-4f3b-8eab-3f2f2b4b1b7b"
                             name := "Al Pacino"
                             type := "DIRECTOR" }]
          genres := [{ id := "442f2b4b-1b7b-4f3b-8eab-3f2f2b4b1b7b"
                       name := "Drama" }]
          banner := { name := "The Godfather"
                      raw_location := "https://banner.com/the-godfather" } } ∧
      (HttpCodeflixClient.get_video video_id).id = video_id :=
  ⟨rfl, rfl⟩

/-- C1: `Consumer.consume` commits the polled message's offset if and only if
the whole handling pipeline succeeds — the poll returned a message with no
broker error and a non-empty payload, the parser produced an event, the
router had a handler for its entity, and that handler returned without
raising. In every other case (no message, broker error, empty payload, parse
failure, missing route, handler exception) no commit happens. -/
theorem consume_commit_iff_success (msg? : Option KafkaMessage)
    (parser : List Nat → Option ParsedEvent)
    (router : EntityKind → Option (ParsedEvent → Except HandlerErr Unit)) :
    commitsOffset (consume msg? parser router) = true ↔
      ∃ message message_data parsed_event handler,
        msg? = some message ∧ message.error = none ∧
          message.value = some message_data ∧ message_data ≠ [] ∧
          parser message_data = some parsed_event ∧
          router parsed_event.entity = some handler ∧
          handler parsed_event = Except.ok () := by
  constructor
  · intro hc
    cases msg? with
    | none => simp [consume, commitsOffset] at hc
    | some message =>
      cases herr : message.error with
      | some err => simp [consume, herr, commitsOffset] at hc
      | none =>
        cases hval : message.value with
        | none => simp [consume, herr, hval, commitsOffset] at hc
        | some message_data =>
          by_cases hdat : message_data = []
          · simp [consume, herr, hval, hdat, commitsOffset] at hc
          · cases hp : parser message_data with
            | none => simp [consume, herr, hval, hdat, hp, commitsOffset] at hc
            | some parsed_event =>
              cases hr : router parsed_event.entity with
              | none => simp [consume, herr, hval, hdat, hp, hr, commitsOffset] at hc
              | some handler =>
                cases hh : handler parsed_event with
                | error e =>
                  simp [consume, herr, hval, hdat, hp, hr, hh, commitsOffset] at hc
                | ok u =>
                  cases u
                  exact ⟨message, message_data, parsed_event, handler, rfl, herr, hval,
                    hdat, hp, hr, hh⟩
  · rintro ⟨message, message_data, parsed_event, handler, rfl, herr, hval, hdat, hp, hr, hh⟩
    simp [consume, herr, hval, hdat, hp, hr, hh, commitsOffset]

/-- C2 (amended): a fault raised during a message's handling does leave that
message uncommitted, but the loop does not continue to the next poll cycle:
`Consumer.start` catches only `KeyboardInterrupt` and `KafkaException`, so a
`KafkaException` from handling is logged and the consumer stops, and any
other fault (validation, enrichment, index write) propagates out of `start`
after the `finally` block closes the client. -/
theorem start_handler_fault_uncommitted_stops
    (parser : List Nat → Option ParsedEvent)
    (router : EntityKind → Option (ParsedEvent → Except HandlerErr Unit))
    (pre rest : List PollStep) (msg? : Option KafkaMessage) (err : HandlerErr)
    (hpre : ∀ s ∈ pre, ∃ m, s = PollStep.poll m ∧
      consumeExc (consume m parser router) = none)
    (hm : consume msg? parser router = ConsumeOutcome.handlerRaised err) :
    (startRun parser router (pre ++ PollStep.poll msg? :: rest)).polled = pre.length + 1 ∧
      (∃ l, (startRun parser router (pre ++ PollStep.poll msg? :: rest)).commits =
          l ++ [false] ∧ l.length = pre.length) ∧
      (startRun parser router (pre ++ PollStep.poll msg? :: rest)).closed = true ∧
      (startRun parser router (pre ++ PollStep.poll msg? :: rest)).exit =
        (match err with
          | HandlerErr.kafka _ => ExitKind.kafkaLogged
          | HandlerErr.other _ => ExitKind.crashed) := by
  induction pre with
  | nil =>
    cases err with
    | kafka m =>
      refine ⟨?_, ⟨[], ?_, rfl⟩, ?_, ?_⟩ <;> simp [startRun, hm, consumeExc]
    | other m =>
      refine ⟨?_, ⟨[], ?_, rfl⟩, ?_, ?_⟩ <;> simp [startRun, hm, consumeExc]
  | cons s pre ih =>
    obtain ⟨m, rfl, hexc⟩ := hpre s (List.mem_cons_self _ _)
    obtain ⟨ih1, ⟨l, ihl, ihlen⟩, ih3, ih4⟩ :=
      ih (fun t ht => hpre t (List.mem_cons_of_mem _ ht))
    refine ⟨?_, ⟨commitsOffset (consume m parser router) :: l, ?_, ?_⟩, ?_, ?_⟩ <;>
      simp [startRun, hexc, ih1, ihl, ihlen, ih3, ih4]

theorem start_handler_fault_uncommitted_stops_witness :
    (startRun cexParser cexFaultRouter
        ([] ++ PollStep.poll (some cexMessage) :: [])).polled = 1 ∧
      (∃ l, (startRun cexParser cexFaultRouter
          ([] ++ PollStep.poll (some cexMessage) :: [])).commits = l ++ [false] ∧
        l.length = 0) ∧
      (startRun cexParser cexFaultRouter
        ([] ++ PollStep.poll (some cexMessage) :: [])).closed = true ∧
      (startRun cexParser cexFaultRouter
        ([] ++ PollStep.poll (some cexMessage) :: [])).exit = ExitKind.crashed :=
  start_handler_fault_uncommitted_stops cexParser cexFaultRouter [] []
    (some cexMessage) (HandlerErr.other "index write fault")
    (fun s hs => absurd hs (List.not_mem_nil s)) rfl

/-- C2 counterexample: with a second message waiting, a non-Kafka handler
fault on the first message ends the run after one poll cycle with the
exception propagating out of `start` — the loop neither continues to the next
poll cycle nor avoids crashing, refuting the claim as stated (the
message is indeed left uncommitted). -/
theorem start_handler_fault_counterexample :
    startRun cexParser cexFaultRouter
        [PollStep.poll (some cexMessage), PollStep.poll (some cexMessage)] =
      { commits := [false], polled := 1, closed := true, exit := ExitKind.crashed } ∧
      (startRun cexParser cexFaultRouter
        [PollStep.poll (some cexMessage), PollStep.poll (some cexMessage)]).polled ≠ 2 :=
  ⟨rfl, by decide⟩

/-- C5 (amended): on a well-formed CDC message the parser returns a
`ParsedEvent` whose entity is the fixed table mapping, whose operation is the
fixed op-code mapping, and whose payload is the value stored under `"after"`
for create/update/read and `"before"` for delete — even when that stored
value is null. UTF-8 input that is not valid JSON, an unknown table, an
unknown operation code, or an absent required key each produce no event and
exactly one logged error. Two deviations from the original claim: a payload
that is not valid UTF-8 raises an uncaught `UnicodeDecodeError` (only
`json.JSONDecodeError` is caught) instead of producing the failure signal,
and a present-but-null expected sub-object yields an event with a null
payload rather than the failure signal. -/
theorem parse_debezium_mapping_amended :
    (parse_debezium_message RawMessage.notJson = ParseOutcome.noEvent 1) ∧
      (parse_debezium_message RawMessage.notUtf8 =
        ParseOutcome.uncaught PyErr.unicodeDecodeError) ∧
      (∀ j p s t ek opv op v,
        pyGetItem j "payload" = Except.ok p →
        pyGetItem p "source" = Except.ok s →
        pyGetItem s "table" = Except.ok t →
        tableIndex t = Except.ok ek →
        pyGetItem p "op" = Except.ok opv →
        operationOf opv = Except.ok op →
        (if op = Operation.DELETE then pyGetItem p "before" else pyGetItem p "after") =
          Except.ok v →
        parse_debezium_message (RawMessage.decoded j) = ParseOutcome.event ⟨ek, op, v⟩) ∧
      (∀ j, pyGetItem j "payload" = Except.error PyErr.keyError →
        parse_debezium_message (RawMessage.decoded j) = ParseOutcome.noEvent 1) ∧
      (∀ j p, pyGetItem j "payload" = Except.ok p →
        pyGetItem p "source" = Except.error PyErr.keyError →
        parse_debezium_message (RawMessage.decoded j) = ParseOutcome.noEvent 1) ∧
      (∀ j p s, pyGetItem j "payload" = Except.ok p →
        pyGetItem p "source" = Except.ok s →
        pyGetItem s "table" = Except.error PyErr.keyError →
        parse_debezium_message (RawMessage.decoded j) = ParseOutcome.noEvent 1) ∧
      (∀ j p s t, pyGetItem j "payload" = Except.ok p →
        pyGetItem p "source" = Except.ok s →
        pyGetItem s "table" = Except.ok t →
        tableIndex t = Except.error PyErr.keyError →
        parse_debezium_message (RawMessage.decoded j) = ParseOutcome.noEvent 1) ∧
      (∀ j p s t ek, pyGetItem j "payload" = Except.ok p →
        pyGetItem p "source" = Except.ok s →
        pyGetItem s "table" = Except.ok t →
        tableIndex t = Except.ok ek →
        pyGetItem p "op" = Except.error PyErr.keyError →
        parse_debezium_message (RawMessage.decoded j) = ParseOutcome.noEvent 1) ∧
      (∀ j p s t ek opv, pyGetItem j "payload" = Except.ok p →
        pyGetItem p "source" = Except.ok s →
        pyGetItem s "table" = Except.ok t →
        tableIndex t = Except.ok ek →
        pyGetItem p "op" = Except.ok opv →
        operationOf opv = Except.error PyErr.valueError →
        parse_debezium_message (RawMessage.decoded j) = ParseOutcome.noEvent 1) ∧
      (∀ j p s t ek opv op, pyGetItem j "payload" = Except.ok p →
        pyGetItem p "source" = Except.ok s →
        pyGetItem s "table" = Except.ok t →
        tableIndex t = Except.ok ek →
        pyGetItem p "op" = Except.ok opv →
        operationOf opv = Except.ok op →
        (if op = Operation.DELETE then pyGetItem p "before" else pyGetItem p "after") =
          Except.error PyErr.keyError →
        parse_debezium_message (RawMessage.decoded j) = ParseOutcome.noEvent 1) := by
  refine ⟨rfl, rfl, ?_, ?_, ?_, ?_, ?_, ?_, ?_, ?_⟩
  · intro j p s t ek opv op v h1 h2 h3 h4 h5 h6 h7
    simp [parse_debezium_message, parseChain, h1, h2, h3, h4, h5, h6, h7]
  · intro j h1
    simp [parse_debezium_message, parseChain, h1]
  · intro j p h1 h2
    simp [parse_debezium_message, parseChain, h1, h2]
  · intro j p s h1 h2 h3
    simp [parse_debezium_message, parseChain, h1, h2, h3]
  · intro j p s t h1 h2 h3 h4
    simp [parse_debezium_message, parseChain, h1, h2, h3, h4]
  · intro j p s t ek h1 h2 h3 h4 h5
    simp [parse_debezium_message, parseChain, h1, h2, h3, h4, h5]
  · intro j p s t ek opv h1 h2 h3 h4 h5 h6
    simp [parse_debezium_message, parseChain, h1, h2, h3, h4, h5, h6]
  · intro j p s t ek opv op h1 h2 h3 h4 h5 h6 h7
    simp [parse_debezium_message, parseChain, h1, h2, h3, h4, h5, h6, h7]

theorem parse_debezium_mapping_amended_witness :
    parse_debezium_message (RawMessage.decoded (Json.obj [("payload", Json.obj
        [("source", Json.obj [("table", Json.str "categories")]),
         ("op", Json.str "c"),
         ("after", Json.obj [("id", Json.num 1)])])])) =
      ParseOutcome.event ⟨EntityKind.Category, Operation.CREATE,
        Json.obj [("id", Json.num 1)]⟩ :=
  parse_debezium_mapping_amended.2.2.1 _ _ _ _ _ _ _ _ rfl rfl rfl rfl rfl rfl rfl

/-- C5 counterexample, refuting two conjuncts of the claim at concrete
inputs. First, a create message whose `"after"` key is present with a null
value — the expected sub-object is missing (this is exactly how Debezium
encodes an absent image), yet the parser produces an event with a null
payload instead of the no-event failure signal. Second, a raw payload that
is not valid UTF-8 is malformed JSON input, yet the parser raises an
uncaught `UnicodeDecodeError` (crashing the caller) instead of returning the
failure signal with one logged error. -/
theorem parse_debezium_null_after_counterexample :
    parse_debezium_message (RawMessage.decoded nullAfterMessage) =
        ParseOutcome.event ⟨EntityKind.Video, Operation.CREATE, Json.null⟩ ∧
      parse_debezium_message (RawMessage.decoded nullAfterMessage) ≠
        ParseOutcome.noEvent 1 ∧
      parse_debezium_message RawMessage.notUtf8 =
        ParseOutcome.uncaught PyErr.unicodeDecodeError ∧
      parse_debezium_message RawMessage.notUtf8 ≠ ParseOutcome.noEvent 1 :=
  ⟨rfl, (fun h => nomatch h), rfl, (fun h => nomatch h)⟩
